import Mathlib

/-!
Verification development for the remote-proctoring attention engine of the
Marco-The-AI-Interviewer repository.

The embedding below translates, shallowly, the proctoring-relevant code:

* `src/services/headpose_detection.py` — `HeadPoseDetector`: per-session gaze
  debouncer state (`looking_away_start_time`, `total_violations`) and the
  per-frame transition `process_frame`, plus the PnP failure branch of
  `estimate_head_pose`.
* `src/services/face_tracking_service.py` — `FaceTrackingService` and
  `FaceMetrics`, wrapping the detector.
* `src/backend/database.py` — the session record and the mutations
  `increment_violation` and `update_session_status` (the SQL UPDATE
  statements acting on one session row).
* `src/backend/routers/proctoring.py` — the three endpoints `analyze_frame`,
  `log_tab_switch`, `get_violation_status`.

External calls (OpenCV face detection, dlib landmarks, the PnP solver and the
subsequent Rodrigues / Euler-angle chain, image decoding, wall-clock time) are
modelled as per-frame inputs: each processed frame carries the outcome of the
detection pipeline (`FrameObs`) and the value of `time.time()` at that frame
(`now : ℚ`).  Python floats are modelled as rationals; every comparison the
claims depend on is a threshold comparison, exactly representable over ℚ.
-/

/-- Outcome of the per-frame detection pipeline feeding
`HeadPoseDetector.process_frame` (headpose_detection.py lines 321-349):
`detect_face` returns `None` (no face), the sentinel string `"multiple"`,
or a single face rectangle; with a single face, `get_landmarks` may return
`None` (landmark fit failure); otherwise `estimate_head_pose` yields
(pitch, yaw, roll) in degrees. -/
inductive FrameObs where
  | noFace
  | multipleFaces
  | landmarkFailure
  | pose (pitch yaw roll : ℚ)
deriving DecidableEq, Repr

/-- Mutable state of `HeadPoseDetector` (headpose_detection.py lines 46-52):
configuration `yaw_threshold` / `looking_away_duration` and the tracking
variables `looking_away_start_time` / `total_violations`. -/
structure HeadPoseDetector where
  yaw_threshold : ℚ
  looking_away_duration : ℚ
  looking_away_start_time : Option ℚ
  total_violations : Nat
deriving DecidableEq, Repr

/-- The `status` dictionary built by `HeadPoseDetector.process_frame`
(headpose_detection.py lines 311-319).  The `warning` field carries the
data interpolated into the f-string warning message: the excursion duration
and the updated violation total. -/
structure Status where
  face_detected : Bool
  multiple_faces : Bool
  looking_away : Bool
  pitch : ℚ
  yaw : ℚ
  roll : ℚ
  warning : Option (ℚ × Nat)
deriving DecidableEq, Repr

/-- Initial value of the `status` dictionary (headpose_detection.py
lines 311-319): all flags false, angles zero, no warning. -/
def initStatus : Status :=
  { face_detected := false, multiple_faces := false, looking_away := false,
    pitch := 0, yaw := 0, roll := 0, warning := none }

/-- Python's built-in `abs`, applied to the yaw angle in the comparison
`abs(yaw) > self.yaw_threshold` (headpose_detection.py line 355). -/
def qabs (x : ℚ) : ℚ := if x < 0 then -x else x

/-- Shallow embedding of `HeadPoseDetector.process_frame`
(headpose_detection.py lines 301-374).  `obs` is the outcome of the
detection pipeline for this frame and `now` the value of `time.time()`.

* no face: reset `looking_away_start_time`, return the initial status;
* multiple faces: reset `looking_away_start_time`, status has
  `multiple_faces = True` but `face_detected` stays `False`;
* landmark failure: return with `face_detected = True`, state untouched;
* pose: record the angles; if `|yaw| > yaw_threshold`, mark looking away and
  either start the excursion clock or, once `now - since` exceeds
  `looking_away_duration`, increment `total_violations` (note: the code never
  clears `looking_away_start_time` here, so the increment repeats on every
  subsequent frame of the excursion); if `|yaw| ≤ yaw_threshold`, reset the
  clock. -/
def HeadPoseDetector.process_frame (d : HeadPoseDetector) (obs : FrameObs) (now : ℚ) :
    HeadPoseDetector × Status :=
  match obs with
  | .noFace => ({ d with looking_away_start_time := none }, initStatus)
  | .multipleFaces =>
      ({ d with looking_away_start_time := none },
       { initStatus with multiple_faces := true })
  | .landmarkFailure => (d, { initStatus with face_detected := true })
  | .pose p y r =>
      let st : Status :=
        { initStatus with face_detected := true, pitch := p, yaw := y, roll := r }
      if qabs y > d.yaw_threshold then
        let st := { st with looking_away := true }
        match d.looking_away_start_time with
        | none => ({ d with looking_away_start_time := some now }, st)
        | some since =>
            let duration := now - since
            if duration > d.looking_away_duration then
              ({ d with total_violations := d.total_violations + 1 },
               { st with warning := some (duration, d.total_violations + 1) })
            else (d, st)
      else ({ d with looking_away_start_time := none }, st)

/-- Iterated frame processing: threads the detector state through a list of
(observation, timestamp) pairs, as the webcam loop in `main` does
(headpose_detection.py lines 412-419). -/
def HeadPoseDetector.process_frames (d : HeadPoseDetector) :
    List (FrameObs × ℚ) → HeadPoseDetector
  | [] => d
  | (obs, now) :: rest => ((d.process_frame obs now).1).process_frames rest

/-- Shallow embedding of the PnP branch of `HeadPoseDetector.estimate_head_pose`
(headpose_detection.py lines 210-232).  `solve` is the outcome of the external
`cv2.solvePnP` call: `none` when the solver reports failure, `some e` with `e`
the Euler angles in degrees obtained from the recovered rotation (via
`cv2.Rodrigues` and `_rotation_matrix_to_euler_angles`; that chain is
transcendental and is taken as an input here).  On failure the code returns
the literal tuple `(0.0, 0.0, 0.0)`. -/
def estimate_head_pose (solve : Option (ℚ × ℚ × ℚ)) : ℚ × ℚ × ℚ :=
  match solve with
  | none => (0, 0, 0)
  | some e => e

/-- The violation message strings built by `FaceTrackingService.process_frame`
(face_tracking_service.py lines 74-81), as a tagged type:
`empty` ↦ `""`, `noFace` ↦ `"No face detected"`,
`multipleFaces` ↦ `"Multiple faces detected"`,
`lookingAway y` ↦ `"Looking away (yaw: …)"` with the yaw interpolated. -/
inductive ViolationMessage where
  | empty
  | noFace
  | multipleFaces
  | lookingAway (yaw : ℚ)
deriving DecidableEq, Repr

/-- The `FaceMetrics` object (face_tracking_service.py lines 16-25). -/
structure FaceMetrics where
  is_face_detected : Bool
  is_looking_away : Bool
  head_pose : ℚ × ℚ × ℚ
  confidence : ℚ
  violation_message : ViolationMessage
deriving DecidableEq, Repr

/-- State of `FaceTrackingService` (face_tracking_service.py lines 42-47):
`__init__` assigns exactly two attributes, `self.detector` and
`self.violation_count`. -/
structure FaceTrackingService where
  detector : HeadPoseDetector
  violation_count : Nat
deriving DecidableEq, Repr

/-- The if/elif chain of `FaceTrackingService.process_frame`
(face_tracking_service.py lines 74-81): builds the violation message and,
only in the looking-away branch, copies `detector.total_violations` into
`self.violation_count`.  Returns (message, new violation_count). -/
def metrics_branch (fd multi looking : Bool) (yaw : ℚ) (old_count total : Nat) :
    ViolationMessage × Nat :=
  if fd = false then (.noFace, old_count)
  else if multi then (.multipleFaces, old_count)
  else if looking then (.lookingAway yaw, total)
  else (.empty, old_count)

/-- Shallow embedding of `FaceTrackingService.process_frame`
(face_tracking_service.py lines 51-102).  Runs the detector, extracts the
status fields, builds the message and confidence.  The `except` clause of the
source never fires in this model because the embedded inputs cannot raise. -/
def FaceTrackingService.process_frame (svc : FaceTrackingService)
    (obs : FrameObs) (now : ℚ) : FaceTrackingService × FaceMetrics :=
  let out := svc.detector.process_frame obs now
  let st := out.2
  let mb := metrics_branch st.face_detected st.multiple_faces st.looking_away
      st.yaw svc.violation_count out.1.total_violations
  let confidence : ℚ := if st.face_detected then 9 / 10 else 0
  ({ detector := out.1, violation_count := mb.2 },
   { is_face_detected := st.face_detected, is_looking_away := st.looking_away,
     head_pose := (st.pitch, st.yaw, st.roll), confidence := confidence,
     violation_message := mb.1 })

/-- Session status values stored in `interview_sessions.status`:
sessions are created `'in_progress'` (database.py line 88) and moved to
`'completed'` or `'terminated'` by `update_session_status`. -/
inductive SessionStatus where
  | in_progress
  | completed
  | terminated
deriving DecidableEq, Repr

/-- Termination reasons written by the proctoring endpoints
(proctoring.py lines 119 and 181). -/
inductive TermReason where
  | excessive_gaze_violations
  | excessive_tab_switches
deriving DecidableEq, Repr

/-- The proctoring-relevant columns of one `interview_sessions` row
(database.py; init_db.py schema): the two counters, the status, the
termination reason, and the end time. -/
structure SessionRecord where
  status : SessionStatus
  gaze_violations : Nat
  tab_switch_count : Nat
  termination_reason : Option TermReason
  end_time : Option ℚ
deriving DecidableEq, Repr

/-- Argument of `Database.increment_violation` (database.py line 114):
the string `'gaze'` selects the gaze counter, anything else the tab counter. -/
inductive ViolationType where
  | gaze
  | tab_switch
deriving DecidableEq, Repr

/-- Shallow embedding of `Database.increment_violation`
(database.py lines 114-120): an unconditional
`UPDATE interview_sessions SET <counter> = <counter> + 1 WHERE id = ?`
on the session row — no status check of any kind. -/
def increment_violation (r : SessionRecord) : ViolationType → SessionRecord
  | .gaze => { r with gaze_violations := r.gaze_violations + 1 }
  | .tab_switch => { r with tab_switch_count := r.tab_switch_count + 1 }

/-- Shallow embedding of `Database.update_session_status`
(database.py lines 101-112): the UPDATE sets `status`, `termination_reason`
and `end_time = CURRENT_TIMESTAMP` unconditionally; `now` stands for
`CURRENT_TIMESTAMP` at the moment of the call. -/
def update_session_status (r : SessionRecord) (status : SessionStatus)
    (reason : Option TermReason) (now : ℚ) : SessionRecord :=
  { r with status := status, termination_reason := reason, end_time := some now }

/-- Message of a `FrameAnalysisResponse` (proctoring.py lines 75, 130):
`"Invalid image data"` on decode failure, otherwise
`metrics.violation_message or "Frame analyzed successfully"` (the default
replaces the empty string). -/
inductive ResponseMessage where
  | invalidImageData
  | fromMetrics (m : ViolationMessage)
  | frameAnalyzedSuccessfully
deriving DecidableEq, Repr

/-- The `FrameAnalysisResponse` model (proctoring.py lines 21-29).  `details`
carries `(head_pose, confidence)` when populated, `none` for the empty dict. -/
structure FrameAnalysisResponse where
  face_detected : Bool
  looking_away : Bool
  violation_detected : Bool
  violation_count : Nat
  should_terminate : Bool
  message : ResponseMessage
  details : Option ((ℚ × ℚ × ℚ) × ℚ)
deriving DecidableEq, Repr

/-- The `TabSwitchResponse` model (proctoring.py lines 32-36). -/
structure TabSwitchResponse where
  message : String
  total_tab_switches : Nat
  should_terminate : Bool
deriving DecidableEq, Repr

/-- The `ViolationStatusResponse` model (proctoring.py lines 39-44). -/
structure ViolationStatusResponse where
  gaze_violations : Nat
  tab_switches : Nat
  should_terminate : Bool
  termination_reason : Option TermReason
deriving DecidableEq, Repr

/-- Python falsiness of `metrics.violation_message or "Frame analyzed
successfully"` (proctoring.py line 130): the empty string is replaced by the
default. -/
def response_message_of (m : ViolationMessage) : ResponseMessage :=
  match m with
  | .empty => .frameAnalyzedSuccessfully
  | m => .fromMetrics m

/-- The database block of `analyze_frame` (proctoring.py lines 90-111): if the
service's violation count exceeds the stored `gaze_violations`, increment the
gaze counter (the re-fetched session is the incremented record). -/
def analyze_frame_record_step (current_violations : Nat) (r : SessionRecord) :
    SessionRecord :=
  if current_violations > r.gaze_violations then increment_violation r .gaze else r

/-- Shallow embedding of the body of the `analyze_frame` endpoint
(proctoring.py lines 48-151) for a session whose row exists.  `decoded` is the
result of `cv2.imdecode`: `none` models an undecodable buffer, `some obs` a
decoded frame together with its detection-pipeline outcome.  Returns the
updated face service, the updated session row, and the response.  Every path
of the handler returns a response (the decode-failure branch and the blanket
`except` both build a `FrameAnalysisResponse` rather than raising). -/
def analyze_frame_core (svc : FaceTrackingService) (r : SessionRecord)
    (decoded : Option FrameObs) (now : ℚ) :
    FaceTrackingService × SessionRecord × FrameAnalysisResponse :=
  match decoded with
  | none =>
      (svc, r,
       { face_detected := false, looking_away := false, violation_detected := false,
         violation_count := 0, should_terminate := false,
         message := .invalidImageData, details := none })
  | some obs =>
      let out := svc.process_frame obs now
      let svc1 := out.1
      let m := out.2
      let r1 := analyze_frame_record_step svc1.violation_count r
      let should_terminate := r1.gaze_violations ≥ 5
      let r2 := if should_terminate then
          update_session_status r1 .terminated (some .excessive_gaze_violations) now
        else r1
      (svc1, r2,
       { face_detected := m.is_face_detected, looking_away := m.is_looking_away,
         violation_detected := m.is_looking_away && m.is_face_detected,
         violation_count := svc1.violation_count,
         should_terminate := decide should_terminate,
         message := response_message_of m.violation_message,
         details := some (m.head_pose, m.confidence) })

/-- HTTP status codes raised by the endpoints via `HTTPException`. -/
abbrev HttpError := Nat

/-- The `analyze_frame` endpoint as seen by its caller: it never surfaces an
error status (proctoring.py lines 139-151 convert even unexpected exceptions
into an ok response). -/
def analyze_frame (svc : FaceTrackingService) (r : SessionRecord)
    (decoded : Option FrameObs) (now : ℚ) :
    Except HttpError (FaceTrackingService × SessionRecord × FrameAnalysisResponse) :=
  .ok (analyze_frame_core svc r decoded now)

/-- Shallow embedding of the `log_tab_switch` endpoint
(proctoring.py lines 154-195) for a session whose row exists: increment the
tab counter, read it back, terminate the session when it reaches 2. -/
def log_tab_switch (r : SessionRecord) (now : ℚ) :
    SessionRecord × TabSwitchResponse :=
  let r1 := increment_violation r .tab_switch
  let tab := r1.tab_switch_count
  let should_terminate := tab ≥ 2
  let r2 := if should_terminate then
      update_session_status r1 .terminated (some .excessive_tab_switches) now
    else r1
  (r2, { message := "Tab switch logged", total_tab_switches := tab,
         should_terminate := decide should_terminate })

/-- Attribute lookup for `face_service.max_violations`
(proctoring.py lines 218-221).  `FaceTrackingService.__init__`
(face_tracking_service.py lines 42-47) assigns exactly the attributes
`detector` and `violation_count`, and no method of the class ever assigns
`max_violations`, so the lookup finds nothing: in Python it raises
`AttributeError`. -/
def fts_max_violations_attr : Option Nat := none

/-- Shallow embedding of the `get_violation_status` endpoint
(proctoring.py lines 198-239).  A missing session row raises 404.  Otherwise
the handler reads `face_service.max_violations`; were that attribute present
with value `maxv`, lines 214-233 would compute the combined decision shown in
the `some` branch; since the attribute does not exist, the `AttributeError`
is caught by the blanket `except` and re-raised as HTTP 500. -/
def get_violation_status (session : Option SessionRecord)
    (svc : FaceTrackingService) : Except HttpError ViolationStatusResponse :=
  match session with
  | none => .error 404
  | some r =>
      match fts_max_violations_attr with
      | none => .error 500
      | some maxv =>
          let gaze := svc.violation_count
          let tab := r.tab_switch_count
          let should_terminate := gaze ≥ maxv ∨ tab ≥ 2
          let reason : Option TermReason :=
            if gaze ≥ maxv then some .excessive_gaze_violations
            else if tab ≥ 2 then some .excessive_tab_switches
            else none
          .ok { gaze_violations := gaze, tab_switches := tab,
                should_terminate := decide should_terminate,
                termination_reason := if decide should_terminate then reason else none }

/-- Modelled from the spec: `SessionTerminationPolicy.decide` (spec §4.6), the
single pure decision function the spec claims is applied at every call site.
Written from the spec's words, for comparison with the per-endpoint checks
actually implemented in `proctoring.py`. -/
inductive Decision where
  | cont
  | terminate (reason : TermReason)
deriving DecidableEq, Repr

/-- Modelled from the spec: the decision rule of spec §4.6 —
gaze count ≥ 5 gives `Terminate(excessive_gaze_violations)`, else tab count
≥ 2 gives `Terminate(excessive_tab_switches)`, else `Continue`. -/
def termination_policy_spec (gaze tab : Nat) : Decision :=
  if gaze ≥ 5 then .terminate .excessive_gaze_violations
  else if tab ≥ 2 then .terminate .excessive_tab_switches
  else .cont

/-- Iterated frame analysis on one session: threads the face service and the
session row through a list of (decoded observation, timestamp) pairs, as
repeated calls to the `analyze_frame` endpoint do. -/
def run_frames (svc : FaceTrackingService) (r : SessionRecord) :
    List (FrameObs × ℚ) → FaceTrackingService × SessionRecord
  | [] => (svc, r)
  | (obs, now) :: rest =>
      let out := analyze_frame_core svc r (some obs) now
      run_frames out.1 out.2.1 rest

/-- Boolean test used to state C7: the frame is a pose observation whose yaw
is within the threshold. -/
def is_forward_frame (thr : ℚ) : FrameObs → Bool
  | .pose _ y _ => decide (qabs y ≤ thr)
  | _ => false

/-! Fixtures: a fresh detector/service/session as created by
`get_or_create_face_service` (dependencies.py lines 51-62) and
`Database.create_session` (database.py lines 81-94). -/

/-- Fresh detector: `yaw_threshold = 30.0`, `looking_away_duration = 2.0`,
no excursion in progress, zero violations. -/
def freshDetector : HeadPoseDetector :=
  { yaw_threshold := 30, looking_away_duration := 2,
    looking_away_start_time := none, total_violations := 0 }

/-- Fresh face tracking service for a session. -/
def freshService : FaceTrackingService :=
  { detector := freshDetector, violation_count := 0 }

/-- Fresh session row: status `'in_progress'`, both counters zero. -/
def freshSession : SessionRecord :=
  { status := .in_progress, gaze_violations := 0, tab_switch_count := 0,
    termination_reason := none, end_time := none }

/-- C1: a single sustained excursion (yaw 45° > 30° at t = 0 s, 3 s, 4 s,
all beyond the 2.0 s debounce) drives `total_violations` to 2 — the code
increments on every frame once the excursion exceeds the duration threshold,
not exactly once per excursion as the claim states; the session's durable
`gaze_violations` counter, synchronized by `analyze_frame`, also reaches 2. -/
theorem C1_repeated_increments :
    (freshDetector.process_frames
        [(.pose 0 45 0, 0), (.pose 0 45 0, 3), (.pose 0 45 0, 4)]).total_violations = 2 ∧
    (run_frames freshService freshSession
        [(.pose 0 45 0, 0), (.pose 0 45 0, 3), (.pose 0 45 0, 4)]).2.gaze_violations = 2 := by
  norm_num [HeadPoseDetector.process_frames, HeadPoseDetector.process_frame,
    freshDetector, freshService, freshSession, qabs, run_frames, analyze_frame_core,
    FaceTrackingService.process_frame, metrics_branch, analyze_frame_record_step,
    increment_violation, initStatus]

/-- C2 counterexample: with a session at 0 gaze violations and 2 tab switches,
the spec's termination policy decides `Terminate(excessive_tab_switches)`,
but the frame-analysis call site decides `should_terminate = false` — the
claimed decision rule does not hold at every call site. -/
theorem C2_counterexample :
    (analyze_frame_core freshService
        { status := .in_progress, gaze_violations := 0, tab_switch_count := 2,
          termination_reason := none, end_time := none }
        (some (.pose 0 0 0)) 0).2.2.should_terminate = false ∧
    termination_policy_spec 0 2 = .terminate .excessive_tab_switches := by
  decide

/-- C3: for every existing session row, the status query reads the attribute
`max_violations` on the `FaceTrackingService` instance; no such attribute is
ever assigned, so the handler raises (surfaced as HTTP 500) instead of
returning a `ViolationStatusResponse`. -/
theorem C3_status_query_raises (r : SessionRecord) (svc : FaceTrackingService) :
    get_violation_status (some r) svc = .error 500 := rfl

/-- C4 counterexample: incrementing the gaze counter of a terminated session
is not a no-op — `Database.increment_violation` has no status guard, so the
counter moves from 5 to 6 on a session whose status is `terminated`. -/
theorem C4_counterexample :
    increment_violation
        { status := .terminated, gaze_violations := 5, tab_switch_count := 1,
          termination_reason := some .excessive_gaze_violations, end_time := some 10 }
        .gaze
      ≠ { status := .terminated, gaze_violations := 5, tab_switch_count := 1,
          termination_reason := some .excessive_gaze_violations, end_time := some 10 } := by
  decide

/-- C4 amended: `increment_violation` increments the selected counter
unconditionally — even when the session status is not `in_progress` — and
signals nothing; the status itself is left unchanged. -/
theorem C4_amended (r : SessionRecord) (h : r.status ≠ .in_progress) :
    (increment_violation r .gaze).gaze_violations = r.gaze_violations + 1 ∧
    (increment_violation r .tab_switch).tab_switch_count = r.tab_switch_count + 1 ∧
    (increment_violation r .gaze).status = r.status ∧
    (increment_violation r .tab_switch).status = r.status :=
  ⟨rfl, rfl, rfl, rfl⟩

/-- Terminated session fixture used to witness C4. -/
def closedSession : SessionRecord :=
  { status := .terminated, gaze_violations := 5, tab_switch_count := 1,
    termination_reason := some .excessive_gaze_violations, end_time := some 10 }

/-- Witness for C4 amended at a concrete terminated session. -/
theorem C4_amended_witness :
    (increment_violation closedSession .gaze).gaze_violations
        = closedSession.gaze_violations + 1 ∧
    (increment_violation closedSession .tab_switch).tab_switch_count
        = closedSession.tab_switch_count + 1 ∧
    (increment_violation closedSession .gaze).status = closedSession.status ∧
    (increment_violation closedSession .tab_switch).status = closedSession.status :=
  C4_amended closedSession (by decide)

/-- C5 counterexample: applying the Terminate update a second time re-stamps
the end time — `update_session_status` sets `end_time = CURRENT_TIMESTAMP`
unconditionally, so reapplying at a later clock value changes the stored end
time, contradicting the claimed idempotence. -/
theorem C5_counterexample :
    (update_session_status
        (update_session_status freshSession .terminated
          (some .excessive_gaze_violations) 1)
        .terminated (some .excessive_gaze_violations) 2).end_time
      ≠ (update_session_status freshSession .terminated
          (some .excessive_gaze_violations) 1).end_time := by
  decide

/-- C5 amended: applying Terminate does set status to `terminated`, store the
reason and stamp the end time, but it is not idempotent: reapplying at a
different clock value re-stamps `end_time`. -/
theorem C5_amended (r : SessionRecord) (rsn : Option TermReason) (t1 t2 : ℚ)
    (h : t1 ≠ t2) :
    (update_session_status r .terminated rsn t1).status = .terminated ∧
    (update_session_status r .terminated rsn t1).termination_reason = rsn ∧
    (update_session_status r .terminated rsn t1).end_time = some t1 ∧
    (update_session_status (update_session_status r .terminated rsn t1)
        .terminated rsn t2).end_time
      ≠ (update_session_status r .terminated rsn t1).end_time := by
  refine ⟨rfl, rfl, rfl, ?_⟩
  simp [update_session_status]
  exact fun he => h he.symm

/-- Witness for C5 amended: terminating at time 1 and re-applying at time 2. -/
theorem C5_amended_witness :
    (update_session_status freshSession .terminated
        (some .excessive_gaze_violations) 1).status = .terminated ∧
    (update_session_status freshSession .terminated
        (some .excessive_gaze_violations) 1).termination_reason
      = some .excessive_gaze_violations ∧
    (update_session_status freshSession .terminated
        (some .excessive_gaze_violations) 1).end_time = some 1 ∧
    (update_session_status
        (update_session_status freshSession .terminated
          (some .excessive_gaze_violations) 1)
        .terminated (some .excessive_gaze_violations) 2).end_time
      ≠ (update_session_status freshSession .terminated
          (some .excessive_gaze_violations) 1).end_time :=
  C5_amended freshSession (some .excessive_gaze_violations) 1 2 (by decide)

/-- C6 counterexample: on solver failure `estimate_head_pose` returns the
same value as a successful, exactly facing-forward solve — the literal
`(0.0, 0.0, 0.0)` — so a solver failure is not distinguishable from "facing
forward" and no distinguished `Unknown` value is returned. -/
theorem C6_counterexample :
    estimate_head_pose none = estimate_head_pose (some (0, 0, 0)) ∧
    estimate_head_pose none = (0, 0, 0) := by
  decide

/-- C6 amended: solver failure yields the zeroed pose `(0, 0, 0)`, and a
`(0, 0, 0)` result cannot be told apart: it arises exactly from solver
failure or from a successful solve of a perfectly forward pose. -/
theorem C6_amended (solve : Option (ℚ × ℚ × ℚ))
    (h : estimate_head_pose solve = (0, 0, 0)) :
    estimate_head_pose none = (0, 0, 0) ∧
    (solve = none ∨ solve = some (0, 0, 0)) := by
  refine ⟨rfl, ?_⟩
  cases solve with
  | none => exact Or.inl rfl
  | some e => exact Or.inr (by simpa [estimate_head_pose] using h)

/-- Witness for C6 amended at the failing solver outcome. -/
theorem C6_amended_witness :
    estimate_head_pose none = (0, 0, 0) ∧
    ((none : Option (ℚ × ℚ × ℚ)) = none ∨
      (none : Option (ℚ × ℚ × ℚ)) = some (0, 0, 0)) :=
  C6_amended none (by decide)

/-- C8: during an ongoing excursion (a recorded excursion start), a frame
with no detected face clears `looking_away_start_time` — returning the
debouncer to its forward state — without touching `total_violations`. -/
theorem C8_noface_resets (d : HeadPoseDetector) (t0 now : ℚ)
    (h : d.looking_away_start_time = some t0) :
    (d.process_frame .noFace now).1.looking_away_start_time = none ∧
    (d.process_frame .noFace now).1.total_violations = d.total_violations ∧
    (d.process_frame .noFace now).2 = initStatus :=
  ⟨rfl, rfl, rfl⟩

/-- Detector fixture mid-excursion, used to witness C8. -/
def awayDetector : HeadPoseDetector :=
  { yaw_threshold := 30, looking_away_duration := 2,
    looking_away_start_time := some 1, total_violations := 3 }

/-- Witness for C8 at a concrete mid-excursion detector state. -/
theorem C8_noface_resets_witness :
    (awayDetector.process_frame .noFace 5).1.looking_away_start_time = none ∧
    (awayDetector.process_frame .noFace 5).1.total_violations
      = awayDetector.total_violations ∧
    (awayDetector.process_frame .noFace 5).2 = initStatus :=
  C8_noface_resets awayDetector 1 5 rfl

/-- C9: an undecodable buffer (`cv2.imdecode` returns `None`) yields an ok
response with `face_detected = false`, `looking_away = false`,
`violation_detected = false`, `should_terminate = false`,
`violation_count = 0` and the explanatory message `"Invalid image data"`,
leaving the service and the session row untouched — never an error status. -/
theorem C9_undecodable_buffer (svc : FaceTrackingService) (r : SessionRecord)
    (now : ℚ) :
    ∃ out, analyze_frame svc r none now = Except.ok out ∧
      out.2.2.face_detected = false ∧
      out.2.2.looking_away = false ∧
      out.2.2.violation_detected = false ∧
      out.2.2.should_terminate = false ∧
      out.2.2.violation_count = 0 ∧
      out.2.2.message = .invalidImageData ∧
      out.1 = svc ∧ out.2.1 = r :=
  ⟨analyze_frame_core svc r none now, rfl, rfl, rfl, rfl, rfl, rfl, rfl, rfl, rfl⟩

/-- Helper: on a single-face pose frame the detector never sets the
`multiple_faces` flag — that flag is raised only in the `"multiple"` branch,
which also leaves `face_detected` false. -/
theorem pose_status_not_multiple (d : HeadPoseDetector) (p y r now : ℚ) :
    (d.process_frame (.pose p y r) now).2.multiple_faces = false := by
  obtain ⟨thr, dur, start, tot⟩ := d
  unfold HeadPoseDetector.process_frame
  by_cases hy : qabs y > thr
  · cases start with
    | none => simp [hy, initStatus]
    | some since => by_cases hd : now - since > dur <;> simp [hy, hd, initStatus]
  · simp [hy, initStatus]

/-- Helper: with `multi = false` the message chain of
`FaceTrackingService.process_frame` cannot produce the multiple-faces
message. -/
theorem metrics_branch_not_multiple (fd looking : Bool) (y : ℚ) (oc tot : Nat) :
    (metrics_branch fd false looking y oc tot).1 ≠ .multipleFaces := by
  unfold metrics_branch
  by_cases h1 : fd = false <;> by_cases h2 : looking = true <;> simp [h1, h2]

/-- C10: a multiple-faces frame is indistinguishable from a no-face frame in
the returned `FaceMetrics`: the metrics coincide, carry
`is_face_detected = false` and the message `"No face detected"`, and the
`"Multiple faces detected"` branch is unreachable — no observation ever
produces that message, because the detector reports `face_detected = False`
whenever it reports multiple faces. -/
theorem C10_multiple_faces_indistinguishable (svc : FaceTrackingService)
    (now : ℚ) :
    (svc.process_frame .multipleFaces now).2 = (svc.process_frame .noFace now).2 ∧
    (svc.process_frame .multipleFaces now).2.is_face_detected = false ∧
    (svc.process_frame .multipleFaces now).2.violation_message = .noFace ∧
    ∀ obs, (svc.process_frame obs now).2.violation_message ≠ .multipleFaces := by
  refine ⟨rfl, rfl, rfl, ?_⟩
  intro obs
  cases obs with
  | noFace =>
      simp [FaceTrackingService.process_frame, HeadPoseDetector.process_frame,
        metrics_branch, initStatus]
  | multipleFaces =>
      simp [FaceTrackingService.process_frame, HeadPoseDetector.process_frame,
        metrics_branch, initStatus]
  | landmarkFailure =>
      simp [FaceTrackingService.process_frame, HeadPoseDetector.process_frame,
        metrics_branch, initStatus]
  | pose p y r =>
      have hmf := pose_status_not_multiple svc.detector p y r now
      simp only [FaceTrackingService.process_frame]
      rw [hmf]
      exact metrics_branch_not_multiple _ _ _ _ _

/-- Witness for C10: a concrete looking-away frame does not produce the
multiple-faces message. -/
theorem C10_witness :
    (freshService.process_frame (.pose 0 45 0) 0).2.violation_message
      ≠ .multipleFaces :=
  (C10_multiple_faces_indistinguishable freshService 0).2.2.2 (.pose 0 45 0)

/-- Helper: the gaze counter after the frame-analysis database step does not
depend on the session's tab-switch counter. -/
theorem record_step_tab_independent (c : Nat) (r : SessionRecord) (t : Nat) :
    (analyze_frame_record_step c { r with tab_switch_count := t }).gaze_violations
      = (analyze_frame_record_step c r).gaze_violations := by
  unfold analyze_frame_record_step increment_violation
  by_cases h : c > r.gaze_violations <;> simp [h]

/-- Helper: the frame-analysis database step never changes the stored
termination reason. -/
theorem record_step_reason (c : Nat) (r : SessionRecord) :
    (analyze_frame_record_step c r).termination_reason = r.termination_reason := by
  unfold analyze_frame_record_step increment_violation
  by_cases h : c > r.gaze_violations <;> simp [h]

/-- C2 amended: the two live call sites each consult only their own counter —
frame analysis terminates exactly when the post-sync gaze counter reaches 5
(reason `excessive_gaze_violations`), independently of the tab-switch count;
the tab-switch endpoint terminates exactly when the incremented tab count
reaches 2 (reason `excessive_tab_switches`), independently of the gaze count;
and the status query, the only site that combines both counters as the claim
describes, always raises (HTTP 500) instead of returning a decision. -/
theorem C2_amended :
    (∀ svc r obs now,
      (analyze_frame_core svc r (some obs) now).2.2.should_terminate
        = decide ((analyze_frame_record_step
            (svc.process_frame obs now).1.violation_count r).gaze_violations ≥ 5)) ∧
    (∀ svc r obs now t,
      (analyze_frame_core svc { r with tab_switch_count := t }
          (some obs) now).2.2.should_terminate
        = (analyze_frame_core svc r (some obs) now).2.2.should_terminate) ∧
    (∀ svc r obs now,
      (analyze_frame_core svc r (some obs) now).2.1.termination_reason
        = if (analyze_frame_record_step
              (svc.process_frame obs now).1.violation_count r).gaze_violations ≥ 5
          then some .excessive_gaze_violations else r.termination_reason) ∧
    (∀ r now g,
      (log_tab_switch { r with gaze_violations := g } now).2.should_terminate
        = (log_tab_switch r now).2.should_terminate) ∧
    (∀ r now, (log_tab_switch r now).2.should_terminate
        = decide (r.tab_switch_count + 1 ≥ 2)) ∧
    (∀ r now, (log_tab_switch r now).1.termination_reason
        = if r.tab_switch_count + 1 ≥ 2 then some .excessive_tab_switches
          else r.termination_reason) ∧
    (∀ r svc, get_violation_status (some r) svc = .error 500) := by
  refine ⟨fun svc r obs now => rfl, ?_, ?_, fun r now g => rfl,
    fun r now => rfl, ?_, fun r svc => rfl⟩
  · intro svc r obs now t
    show decide ((analyze_frame_record_step
          (svc.process_frame obs now).1.violation_count
          { r with tab_switch_count := t }).gaze_violations ≥ 5)
      = decide ((analyze_frame_record_step
          (svc.process_frame obs now).1.violation_count r).gaze_violations ≥ 5)
    rw [record_step_tab_independent]
  · intro svc r obs now
    simp only [analyze_frame_core]
    by_cases h : (analyze_frame_record_step
        (svc.process_frame obs now).1.violation_count r).gaze_violations ≥ 5
    · simp [h, update_session_status]
    · simp [h, record_step_reason]
  · intro r now
    by_cases h : r.tab_switch_count + 1 ≥ 2
    · simp [log_tab_switch, increment_violation, update_session_status, h]
    · simp [log_tab_switch, increment_violation, update_session_status, h]

/-- Helper: a pose frame within the yaw threshold resets the excursion clock
and leaves the violation count unchanged. -/
theorem detector_forward_step (d : HeadPoseDetector) (p y rl now : ℚ)
    (hy : qabs y ≤ d.yaw_threshold) :
    d.process_frame (.pose p y rl) now
      = ({ d with looking_away_start_time := none },
         { initStatus with face_detected := true, pitch := p, yaw := y, roll := rl }) := by
  unfold HeadPoseDetector.process_frame
  simp [not_lt.mpr hy]

/-- Helper: with a zero service count and zero stored gaze counter, a
within-threshold frame leaves the service count at zero, the configured
threshold unchanged, and the session row untouched. -/
theorem analyze_forward_step (svc : FaceTrackingService) (r : SessionRecord)
    (p y rl now : ℚ) (hy : qabs y ≤ svc.detector.yaw_threshold)
    (hc : svc.violation_count = 0) (hg : r.gaze_violations = 0) :
    (analyze_frame_core svc r (some (.pose p y rl)) now).1.violation_count = 0 ∧
    (analyze_frame_core svc r (some (.pose p y rl)) now).1.detector.yaw_threshold
      = svc.detector.yaw_threshold ∧
    (analyze_frame_core svc r (some (.pose p y rl)) now).2.1 = r := by
  have hstep := detector_forward_step svc.detector p y rl now hy
  simp [analyze_frame_core, FaceTrackingService.process_frame, hstep,
    metrics_branch, analyze_frame_record_step, hc, hg, initStatus]

/-- C7: over any frame sequence in which every frame carries an estimated
pose with `|yaw| ≤ yaw_threshold`, a session starting with a zero service
count and a zero stored gaze counter keeps `gaze_violations = 0`; indeed the
whole session row is untouched.  Every prefix of such a sequence again
satisfies the hypothesis, so the counter is 0 throughout the sequence. -/
theorem C7_forward_frames_keep_zero (frames : List (FrameObs × ℚ))
    (svc : FaceTrackingService) (r : SessionRecord)
    (hc : svc.violation_count = 0) (hg : r.gaze_violations = 0)
    (hall : ∀ f ∈ frames, is_forward_frame svc.detector.yaw_threshold f.1 = true) :
    (run_frames svc r frames).2.gaze_violations = 0 ∧
    (run_frames svc r frames).2 = r := by
  induction frames generalizing svc r with
  | nil => exact ⟨hg, rfl⟩
  | cons f rest ih =>
      obtain ⟨obs, now⟩ := f
      have hf := hall (obs, now) (List.mem_cons_self _ _)
      cases obs with
      | noFace => simp [is_forward_frame] at hf
      | multipleFaces => simp [is_forward_frame] at hf
      | landmarkFailure => simp [is_forward_frame] at hf
      | pose p y rl =>
          have hy : qabs y ≤ svc.detector.yaw_threshold := by
            simpa [is_forward_frame] using hf
          have hstep := analyze_forward_step svc r p y rl now hy hc hg
          have hall2 : ∀ f ∈ rest,
              is_forward_frame
                (analyze_frame_core svc r
                  (some (.pose p y rl)) now).1.detector.yaw_threshold f.1 = true := by
            intro f hfm
            rw [hstep.2.1]
            exact hall f (List.mem_cons_of_mem _ hfm)
          have hrun := ih (analyze_frame_core svc r (some (.pose p y rl)) now).1
              (analyze_frame_core svc r (some (.pose p y rl)) now).2.1
              hstep.1 (by rw [hstep.2.2]; exact hg) hall2
          constructor
          · simpa [run_frames] using hrun.1
          · simp only [run_frames]
            rw [hrun.2]
            exact hstep.2.2

/-- Forward-looking frame sequence used to witness C7. -/
def forwardFrames : List (FrameObs × ℚ) := [(.pose 0 10 0, 0), (.pose 0 (-20) 0, 1)]

/-- Witness for C7 on a concrete two-frame forward sequence. -/
theorem C7_witness :
    (run_frames freshService freshSession forwardFrames).2.gaze_violations = 0 ∧
    (run_frames freshService freshSession forwardFrames).2 = freshSession :=
  C7_forward_frames_keep_zero forwardFrames freshService freshSession rfl rfl
    (by decide)
